import Mathlib

/-!
# Verification of the panolens.js interaction core (src/viewer/Viewer.js)

Shallow embedding of the pointer hit-test state machine, entity resolver,
scene-transition protocol, control coordinator and frame driver of
`PANOLENS.Viewer`, together with theorems settling the frozen claims.

Conventions of the embedding:
* JS object identity is modelled by structural equality on the record types
  below; distinct objects are given distinct numeric ids.
* A JS value that may be `undefined` is modelled as an `Option`.
* External collaborators (THREE raycaster, renderer, VR manager) are oracles:
  the ordered intersection list a ray cast would produce is a plain input.
* Side effects (`dispatchEvent`, lifecycle hooks, `onHover` callbacks) are
  recorded in an event trace `List Ev`, in the order the source emits them.
* A JS runtime error (TypeError / ReferenceError) is an explicit
  `Option HostError` result value, never a Lean failure.
-/

namespace Panolens

/-- World-space position; `camera.position`, `panorama.position`,
`OrbitControls.target` (coordinates as integers: no claim depends on
fractional values). -/
structure Vec3 where
  x : Int
  y : Int
  z : Int
deriving DecidableEq, Repr

/-- A logical entity (`object.entity` in the source): the stable interactive
handle a primitive may map to.  `canDispatch` models the presence of a
`dispatchEvent` method, which the source checks before firing events. -/
structure Entity where
  eid : Nat
  passThrough : Bool
  canDispatch : Bool
deriving DecidableEq, Repr

/-- A render primitive as returned by a ray cast (`intersects[i].object`).
`isInfospot` models `instanceof PANOLENS.Infospot`; `hasOnHover` /
`hasOnClick` model the presence of the corresponding callbacks. -/
structure Primitive where
  oid : Nat
  passThrough : Bool
  canDispatch : Bool
  isInfospot : Bool
  hasOnHover : Bool
  hasOnClick : Bool
  entity : Option Entity
deriving DecidableEq, Repr

/-- One element of the ordered intersection list produced by
`raycaster.intersectObjects` (hit point and distance are omitted: no claim
reads them, the source only reads `.object`). -/
structure Intersection where
  object : Primitive
deriving DecidableEq, Repr

/-- The result of entity resolution: either a logical entity or a bare
primitive (in JS both live in one universe of objects). -/
inductive Target where
  | entity (e : Entity)
  | primitive (p : Primitive)
deriving DecidableEq, Repr

/-- `passThrough` of a resolved target. -/
def Target.passThroughB : Target → Bool
  | .entity e => e.passThrough
  | .primitive p => p.passThrough

/-- `dispatchEvent` presence of a resolved target. -/
def Target.canDispatch : Target → Bool
  | .entity e => e.canDispatch
  | .primitive p => p.canDispatch

/-- `getConvertedIntersect` (Viewer.js:681-705): walk the ordered intersection
list; skip a primitive with `passThrough`; skip when its entity has
`passThrough` (entity transparency wins); otherwise return the entity if
mapped, else the primitive itself. -/
def getConvertedIntersect : List Intersection → Option Target
  | [] => none
  | i :: rest =>
    if !i.object.passThrough then
      match i.object.entity with
      | some e => if e.passThrough then getConvertedIntersect rest else some (Target.entity e)
      | none => some (Target.primitive i.object)
    else getConvertedIntersect rest

/-- Spec-side predicate: an intersection the resolver walk skips (pass-through
primitive, or primitive whose entity is pass-through). -/
def skippedIntersection (i : Intersection) : Bool :=
  i.object.passThrough ||
    (match i.object.entity with
     | some e => e.passThrough
     | none => false)

/-- Spec-side target of a non-skipped intersection: its entity if mapped,
else the primitive itself. -/
def intersectTarget (i : Intersection) : Target :=
  match i.object.entity with
  | some e => Target.entity e
  | none => Target.primitive i.object

/-- A pass-through helper primitive with no entity (resolver test data). -/
def passHelperPrim : Primitive :=
  { oid := 1, passThrough := true, canDispatch := true, isInfospot := false
  , hasOnHover := false, hasOnClick := false, entity := none }

/-- An opaque primitive with no entity mapping (resolver test data). -/
def plainPrim : Primitive :=
  { oid := 2, passThrough := false, canDispatch := true, isInfospot := false
  , hasOnHover := false, hasOnClick := false, entity := none }

/-- C2: entity resolution walks the intersection list nearest-to-farthest and
returns the target of the first non-skipped intersection — skipping
pass-through primitives and primitives whose entity is pass-through, taking
the mapped entity when present and the primitive otherwise, and returning
nothing when every intersection is skipped or the list is empty.  In
particular a list whose nearest primitive is pass-through and whose second is
opaque with no entity resolves to the second primitive. -/
theorem resolver_first_non_skipped :
    (∀ l : List Intersection,
        getConvertedIntersect l =
          (l.find? (fun i => ! skippedIntersection i)).map intersectTarget)
    ∧ getConvertedIntersect [⟨passHelperPrim⟩, ⟨plainPrim⟩] =
        some (Target.primitive plainPrim) := by
  constructor
  · intro l
    induction l with
    | nil => rfl
    | cons i rest ih =>
      by_cases hpt : i.object.passThrough
      · simp [getConvertedIntersect, skippedIntersection, List.find?, hpt, ih]
      · cases he : i.object.entity with
        | none =>
          simp [getConvertedIntersect, skippedIntersection, List.find?, hpt, he, intersectTarget]
        | some e =>
          by_cases hept : e.passThrough
          · simp [getConvertedIntersect, skippedIntersection, List.find?, hpt, he, hept, ih]
          · simp [getConvertedIntersect, skippedIntersection, List.find?, hpt, he, hept,
              intersectTarget]
  · rfl

/-- A candidate panorama object: `pano.type === 'panorama'` gates
`setPanorama` (Viewer.js:207). -/
structure Pano where
  pid : Nat
  typeTag : String
deriving DecidableEq, Repr

/-- The observable side effects the interaction core performs, in emission
order: `dispatchEvent` calls, lifecycle hooks and infospot callbacks. -/
inductive Ev where
  | onLeave (p : Pano)
  | onEnter (p : Pano)
  | pressstopEntity (t : Target)
  | pressstop (o : Primitive)
  | panoClick (p : Pano)
  | clickEntity (t : Target)
  | clickPrim (o : Primitive)
  | panoHover (p : Pano)
  | hoverleave (t : Target)
  | hoverenter (t : Target)
  | pressstartEntity (t : Target)
  | pressstart (o : Primitive)
  | pressmoveEntity (t : Target)
  | pressmove (o : Primitive)
  | infospotHover (o : Primitive) (x y : Option Int)
  | infospotClick (o : Primitive)
  | infospotHoverEnd (o : Primitive)
  | toggleChildrenVisibility (p : Pano)
deriving DecidableEq, Repr

/-- `this.userMouse.type` values. -/
inductive MType where
  | none
  | mousedown
  | mousemove
  | mouseup
deriving DecidableEq, Repr

/-- The viewer options the interaction core reads (Viewer.js:31-36). -/
structure Options where
  clickTolerance : Int
  autoHideInfospot : Bool
  autoHideControlBar : Bool
deriving DecidableEq, Repr

/-- `options.clickTolerance = options.clickTolerance || 10` (Viewer.js:36):
`0` is falsy in JS, so it also yields the default. -/
def resolveClickTolerance (o : Option Int) : Int :=
  match o with
  | some v => if v ≠ 0 then v else 10
  | none => 10

/-- One entry of a `TouchList`. -/
structure Touch where
  clientX : Int
  clientY : Int
deriving DecidableEq, Repr

/-- A `mousedown`/`touchstart` event as the handler reads it: `clientX` /
`clientY` are absent (`undefined`) on touch events, `touches` is absent on
mouse events. -/
structure DownEvent where
  clientX : Option Int
  clientY : Option Int
  touches : Option (List Touch)
deriving DecidableEq, Repr

/-- A `mousemove` event as the handler reads it. -/
structure MoveEvent where
  clientX : Option Int
  clientY : Option Int
deriving DecidableEq, Repr

/-- A `mouseup`/`touchend` event as the handler reads it; `targetIsCanvas`
models `event.target.classList.contains('panolens-canvas')`. -/
structure UpEvent where
  clientX : Option Int
  clientY : Option Int
  changedTouches : Option (List Touch)
  targetIsCanvas : Bool
deriving DecidableEq, Repr

/-- A JS runtime error a handler can raise (modelled as a value). -/
inductive HostError where
  | typeError
  | referenceError
deriving DecidableEq, Repr

/-- The mutable per-viewer interaction state: current panorama, hover / press
references, infospot hover, mouse session fields and cursor style. -/
structure ViewerState where
  options : Options
  panorama : Option Pano
  hoverObject : Option Target
  hoveringObject : Option Primitive
  pressEntityObject : Option Target
  pressObject : Option Primitive
  userMouseX : Int
  userMouseY : Int
  userMouseType : MType
  cursorPointer : Bool
deriving DecidableEq, Repr

/-- One axis of the click test (Viewer.js:448-451):
`userMouse.x >= event.clientX - tol && userMouse.x <= event.clientX + tol`;
a comparison against an absent coordinate (`undefined`, hence `NaN`) is
false. -/
def mouseWithin (u : Int) (c : Option Int) (tol : Int) : Bool :=
  match c with
  | some cv => decide (cv - tol ≤ u) && decide (u ≤ cv + tol)
  | none => false

/-- The `changedTouches` branch of the click test (Viewer.js:452-456); a
mouse event has no `changedTouches`, and a `touchend` always carries at
least one entry (the source indexes `[0]` unconditionally). -/
def touchWithin (ux uy : Int) (cts : Option (List Touch)) (tol : Int) : Bool :=
  match cts with
  | none => false
  | some l =>
    match l.head? with
    | none => false
    | some t =>
      decide (t.clientX - tol ≤ ux) && decide (ux ≤ t.clientX + tol) &&
        decide (t.clientY - tol ≤ uy) && decide (uy ≤ t.clientY + tol)

/-- The `click` classification of `onMouseUp` (Viewer.js:448-457): mouse
coordinates within tolerance on both axes, or first changed touch within
tolerance on both axes. -/
def classifyUp (ux uy : Int) (ev : UpEvent) (tol : Int) : Bool :=
  (mouseWithin ux ev.clientX tol && mouseWithin uy ev.clientY tol)
    || touchWithin ux uy ev.changedTouches tol

/-- Viewer.js:530-540: on `mouseup`, fire `pressstop-entity` when the
resolved entity equals the tracked press entity (and it can dispatch), then
unconditionally clear the press-entity reference. -/
def pressStopEntityPhase (st : ViewerState) (ie : Option Target) :
    ViewerState × List Ev :=
  if st.userMouseType = MType.mouseup then
    let evs :=
      match ie with
      | some e =>
        if st.pressEntityObject = some e ∧ e.canDispatch then [Ev.pressstopEntity e] else []
      | none => []
    ({ st with pressEntityObject := none }, evs)
  else (st, [])

/-- Viewer.js:542-552: same protocol for the press primitive. -/
def pressStopObjPhase (st : ViewerState) (io : Option Primitive) :
    ViewerState × List Ev :=
  if st.userMouseType = MType.mouseup then
    let evs :=
      match io with
      | some o =>
        if st.pressObject = some o ∧ o.canDispatch then [Ev.pressstop o] else []
      | none => []
    ({ st with pressObject := none }, evs)
  else (st, [])

/-- Viewer.js:554-568: on a classified click, fire `click` on the panorama,
`click-entity` on the resolved entity and `click` on the resolved
primitive. -/
def clickPhase (st : ViewerState) (pano : Pano) (ie : Option Target)
    (io : Option Primitive) : ViewerState × List Ev :=
  let evs :=
    [Ev.panoClick pano]
      ++ (match ie with
          | some e => if e.canDispatch then [Ev.clickEntity e] else []
          | none => [])
      ++ (match io with
          | some o => if o.canDispatch then [Ev.clickPrim o] else []
          | none => [])
  (st, evs)

/-- Viewer.js:574-585: fire `hoverleave` on the previous hover entity and
clear it, when the new entity differs while intersections exist, or when
there are no intersections. -/
def hoverLeaveStep (st : ViewerState) (intersects : List Intersection)
    (ie : Option Target) : ViewerState × List Ev :=
  match st.hoverObject with
  | some h =>
    if (intersects ≠ [] ∧ some h ≠ ie) ∨ intersects = [] then
      ({ st with hoverObject := none },
        if h.canDispatch then [Ev.hoverleave h] else [])
    else (st, [])
  | none => (st, [])

/-- Viewer.js:589-599: set the new hover entity and fire `hoverenter` when it
differs from the current one. -/
def hoverEnterStep (st : ViewerState) (e : Target) : ViewerState × List Ev :=
  if st.hoverObject ≠ some e then
    ({ st with hoverObject := some e },
      if e.canDispatch then [Ev.hoverenter e] else [])
  else (st, [])

/-- Viewer.js:601-611: on `mousedown`, track the press entity and fire
`pressstart-entity` when it changes. -/
def pressStartEntityStep (st : ViewerState) (e : Target) : ViewerState × List Ev :=
  if st.userMouseType = MType.mousedown ∧ st.pressEntityObject ≠ some e then
    ({ st with pressEntityObject := some e },
      if e.canDispatch then [Ev.pressstartEntity e] else [])
  else (st, [])

/-- Viewer.js:613-623: same for the press primitive. -/
def pressStartObjStep (st : ViewerState) (io : Option Primitive) :
    ViewerState × List Ev :=
  if st.userMouseType = MType.mousedown ∧ st.pressObject ≠ io then
    ({ st with pressObject := io },
      match io with
      | some o => if o.canDispatch then [Ev.pressstart o] else []
      | none => [])
  else (st, [])

/-- Viewer.js:625-633: on `mousemove`, fire `pressmove-entity` on the tracked
press entity. -/
def pressMoveEntityStep (st : ViewerState) : ViewerState × List Ev :=
  if st.userMouseType = MType.mousemove then
    (st,
      match st.pressEntityObject with
      | some pe => if pe.canDispatch then [Ev.pressmoveEntity pe] else []
      | none => [])
  else (st, [])

/-- Viewer.js:635-643: on `mousemove`, fire `pressmove` on the tracked press
primitive. -/
def pressMoveObjStep (st : ViewerState) : ViewerState × List Ev :=
  if st.userMouseType = MType.mousemove then
    (st,
      match st.pressObject with
      | some po => if po.canDispatch then [Ev.pressmove po] else []
      | none => [])
  else (st, [])

/-- Viewer.js:570-647 (`else` branch of the click test): `hover` on the
panorama, hover leave/enter transitions, then — only when the resolver found
a target and intersections exist — press start and press move tracking. -/
def hoverPhase (st : ViewerState) (pano : Pano) (intersects : List Intersection)
    (ie : Option Target) (io : Option Primitive) : ViewerState × List Ev :=
  let r1 := hoverLeaveStep st intersects ie
  match ie with
  | some e =>
    if intersects ≠ [] then
      let r2 := hoverEnterStep r1.1 e
      let r3 := pressStartEntityStep r2.1 e
      let r4 := pressStartObjStep r3.1 io
      let r5 := pressMoveEntityStep r4.1
      let r6 := pressMoveObjStep r5.1
      (r6.1, Ev.panoHover pano :: (r1.2 ++ r2.2 ++ r3.2 ++ r4.2 ++ r5.2 ++ r6.2))
    else (r1.1, Ev.panoHover pano :: r1.2)
  | none => (r1.1, Ev.panoHover pano :: r1.2)

/-- Viewer.js:671-677 (`else` branch of the infospot test): reset the cursor
and end any infospot hover (`hideHoveringObject`, Viewer.js:707-717). -/
def defaultCursorPhase (st : ViewerState) : ViewerState × List Ev × Bool :=
  let st1 := { st with cursorPointer := false }
  match st1.hoveringObject with
  | some h => ({ st1 with hoveringObject := none }, [Ev.infospotHoverEnd h], false)
  | none => (st1, [], false)

/-- Viewer.js:649-677: when the nearest intersected primitive is an Infospot,
invoke its hover callback with the pointer coordinates and set a pointer
cursor; on click invoke its click callback and report the tap consumed. -/
def infospotPhase (st : ViewerState) (intersects : List Intersection)
    (isClick : Bool) (clientX clientY : Option Int) :
    ViewerState × List Ev × Bool :=
  match intersects.head? with
  | some i0 =>
    if i0.object.isInfospot then
      let r1 :=
        if i0.object.hasOnHover then
          ({ st with hoveringObject := some i0.object, cursorPointer := true },
            [Ev.infospotHover i0.object clientX clientY])
        else (st, ([] : List Ev))
      if isClick ∧ i0.object.hasOnClick then
        (r1.1, r1.2 ++ [Ev.infospotClick i0.object], true)
      else (r1.1, r1.2, false)
    else defaultCursorPhase st
  | none => defaultCursorPhase st

/-- `onTap` (Viewer.js:491-679): the hit-test handler.  Takes the ordered
intersection list the raycast against the current panorama's children would
produce (the raycaster is an external collaborator).  Returns the new state,
the emitted events in order, and the "consumed" flag.  The `DEBUG` block
(Viewer.js:503-522) only logs to the console and is omitted. -/
def onTap (st : ViewerState) (intersects : List Intersection)
    (clientX clientY : Option Int) (isClick : Bool) :
    ViewerState × List Ev × Bool :=
  match st.panorama with
  | none => (st, [], false)
  | some pano =>
    let ie := getConvertedIntersect intersects
    let io : Option Primitive := intersects.head?.map Intersection.object
    let r1 := pressStopEntityPhase st ie
    let r2 := pressStopObjPhase r1.1 io
    let r3 := if isClick then clickPhase r2.1 pano ie io else hoverPhase r2.1 pano intersects ie io
    let r4 := infospotPhase r3.1 intersects isClick clientX clientY
    (r4.1, r1.2 ++ r2.2 ++ r3.2 ++ r4.2.1, r4.2.2)

/-- `(event.clientX) ? event.clientX : event.touches[0].clientX`
(Viewer.js:427-428): a `clientX` of `0` or `undefined` falls back to the
first touch; a missing/empty `touches` list there raises a TypeError. -/
def downCoord (c : Option Int) (touches : Option (List Touch))
    (pick : Touch → Int) : Option Int :=
  match c with
  | some v => if v ≠ 0 then some v else (touches.bind List.head?).map pick
  | none => (touches.bind List.head?).map pick

/-- `onMouseDown` (Viewer.js:423-432): record the down coordinates, set the
gesture type and run the hit test. -/
def onMouseDown (st : ViewerState) (ev : DownEvent)
    (intersects : List Intersection) : ViewerState × List Ev × Option HostError :=
  match downCoord ev.clientX ev.touches Touch.clientX with
  | none => (st, [], some HostError.typeError)
  | some x =>
    let st1 := { st with userMouseX := x }
    match downCoord ev.clientY ev.touches Touch.clientY with
    | none => (st1, [], some HostError.typeError)
    | some y =>
      let st2 := { st1 with userMouseY := y, userMouseType := MType.mousedown }
      let r := onTap st2 intersects ev.clientX ev.clientY false
      (r.1, r.2.1, none)

/-- `onMouseMove` (Viewer.js:434-440): set the gesture type and run the hit
test (the down coordinates are left untouched). -/
def onMouseMove (st : ViewerState) (ev : MoveEvent)
    (intersects : List Intersection) : ViewerState × List Ev :=
  let st1 := { st with userMouseType := MType.mousemove }
  let r := onTap st1 intersects ev.clientX ev.clientY false
  (r.1, r.2.1)

/-- `onMouseUp` (Viewer.js:442-489): classify the gesture, drop the event if
its DOM target is not the render canvas, run the hit test (with the first
changed touch's coordinates when exactly one), then — when the click was not
consumed — apply the auto-hide behaviours.  The bare `toggleControlBar()`
call (Viewer.js:485) references a name that is not in scope and raises a
ReferenceError. -/
def onMouseUp (st : ViewerState) (ev : UpEvent)
    (intersects : List Intersection) : ViewerState × List Ev × Option HostError :=
  let st1 := { st with userMouseType := MType.mouseup }
  let isClick := classifyUp st1.userMouseX st1.userMouseY ev st1.options.clickTolerance
  if ev.targetIsCanvas = false then (st1, [], none)
  else
    let r :=
      match ev.changedTouches with
      | some [t] => onTap st1 intersects (some t.clientX) (some t.clientY) isClick
      | some _ => onTap st1 intersects ev.clientX ev.clientY isClick
      | none => onTap st1 intersects ev.clientX ev.clientY isClick
    let st2 := { r.1 with userMouseType := MType.none }
    if r.2.2 then (st2, r.2.1, none)
    else if isClick then
      let evs2 :=
        r.2.1 ++
          (if st2.options.autoHideInfospot then
            match st2.panorama with
            | some p => [Ev.toggleChildrenVisibility p]
            | none => []
          else [])
      if st2.options.autoHideControlBar then (st2, evs2, some HostError.referenceError)
      else (st2, evs2, none)
    else (st2, r.2.1, none)

/-- A raw pointer event, as wired in the constructor (Viewer.js:131-135). -/
inductive PointerEvent where
  | down (ev : DownEvent)
  | move (ev : MoveEvent)
  | up (ev : UpEvent)
deriving DecidableEq, Repr

/-- Dispatch a raw pointer event to its handler. -/
def handlePointer (st : ViewerState) (pe : PointerEvent)
    (intersects : List Intersection) : ViewerState × List Ev × Option HostError :=
  match pe with
  | .down ev => onMouseDown st ev intersects
  | .move ev =>
    let r := onMouseMove st ev intersects
    (r.1, r.2, none)
  | .up ev => onMouseUp st ev intersects

/-- `setPanorama` (Viewer.js:205-217): a no-op unless the candidate's type
tag is `'panorama'`; otherwise leave the current panorama (when present),
assign the new one and enter it. -/
def setPanorama (cur : Option Pano) (pano : Pano) : Option Pano × List Ev :=
  if pano.typeTag = "panorama" then
    (some pano,
      (match cur with
       | some p => [Ev.onLeave p]
       | none => []) ++ [Ev.onEnter pano])
  else (cur, [])

/-- A camera-control scheme: its `name` (`'orbit'`, `'device-orientation'`)
and `enabled` flag. -/
structure ControlScheme where
  name : String
  enabled : Bool
deriving DecidableEq, Repr

/-- The control coordinator's state: the fixed scheme list (`this.controls`),
the index of the active scheme (`this.control` is `controls[active]`), the
camera position and the orbit focus (`OrbitControls.target`). -/
structure CoordState where
  controls : List ControlScheme
  active : Nat
  cameraPos : Vec3
  orbitTarget : Vec3
deriving DecidableEq, Repr

/-- Set the `enabled` flag of the scheme at an index (mutation of the aliased
scheme object in the source). -/
def setEnabledAt : List ControlScheme → Nat → Bool → List ControlScheme
  | [], _, _ => []
  | c :: cs, 0, b => { c with enabled := b } :: cs
  | c :: cs, Nat.succ n, b => c :: setEnabledAt cs n b

/-- The index clamp of `enableControl` (Viewer.js:375):
`(index >= 0 && index < controls.length) ? index : 0`. -/
def clampIndex (st : CoordState) (index : Int) : Nat :=
  if 0 ≤ index ∧ index < (st.controls.length : Int) then index.toNat else 0

/-- `enableControl` (Viewer.js:373-395): clamp the index, disable the current
scheme, activate the requested one, then reposition the camera relative to
the current panorama position — `'orbit'`: panorama position with `z + 1`;
`'device-orientation'`: panorama position exactly; default: untouched.
`panoPos` is `this.panorama.position`. -/
def enableControl (st : CoordState) (panoPos : Vec3) (index : Int) : CoordState :=
  let idx := clampIndex st index
  let controls1 := setEnabledAt st.controls st.active false
  let controls2 := setEnabledAt controls1 idx true
  let name := ((controls2[idx]?).map ControlScheme.name).getD ""
  let st1 := { st with controls := controls2, active := idx }
  if name = "orbit" then
    { st1 with cameraPos := { x := panoPos.x, y := panoPos.y, z := panoPos.z + 1 } }
  else if name = "device-orientation" then
    { st1 with cameraPos := panoPos }
  else st1

/-- `setCameraControl` (Viewer.js:317-323), bound to the panorama
`enter-start` notification: camera at the panorama position with `z + 1`,
orbit focus at the panorama position. -/
def setCameraControl (st : CoordState) (panoPos : Vec3) : CoordState :=
  { st with
      cameraPos := { x := panoPos.x, y := panoPos.y, z := panoPos.z + 1 }
      orbitTarget := panoPos }

/-- `WebVRManager.Modes`-style mode value. -/
inductive VRMode where
  | normal
  | vr
deriving DecidableEq, Repr

/-- The WebVRManager collaborator as the viewer reads it: its mode property
is named `mode` (lowercase), cf. `toggleVR` (Viewer.js:232). -/
structure VRManagerObj where
  mode : VRMode
deriving DecidableEq, Repr

/-- The property read `this.VRManager.Mode` performed by `render`
(Viewer.js:418).  The instance exposes `mode`, not `Mode`, so this JS
property access yields `undefined` for every manager. -/
def VRManagerObj.ModeRead (_ : VRManagerObj) : Option VRMode := none

/-- One step of the per-frame tick, for trace purposes. -/
inductive FrameStep where
  | tweenUpdate
  | updateCallback (i : Nat)
  | controlUpdate
  | vrControlsUpdate
  | renderRequest
deriving DecidableEq, Repr

/-- `render` (Viewer.js:413-421): advance TWEEN, run the registered
per-frame callbacks in order, update the active control, update `VRControls`
when `VRManager.Mode === WebVRManager.Modes.VR`, then ask the VR manager to
render.  `numCallbacks` is the length of `this.updateCallbacks`;
`hasControl` / `hasVRControls` model the truthiness of `this.control` and
`this.VRControls`. -/
def render (vm : VRManagerObj) (numCallbacks : Nat)
    (hasControl hasVRControls : Bool) : List FrameStep :=
  FrameStep.tweenUpdate ::
    ((List.range numCallbacks).map FrameStep.updateCallback
      ++ (if hasControl then [FrameStep.controlUpdate] else [])
      ++ (if hasVRControls && decide (vm.ModeRead = some VRMode.vr) then
            [FrameStep.vrControlsUpdate]
          else [])
      ++ [FrameStep.renderRequest])

/-! ## Basic facts about the resolver -/

lemma getConvertedIntersect_ne_nil {l : List Intersection} {t : Target}
    (h : getConvertedIntersect l = some t) : l ≠ [] := by
  intro hl
  subst hl
  simp [getConvertedIntersect] at h

/-! ## Claim theorems: classification, lifecycle, frame driver -/

/-- C1: on `up`, the gesture is classified as a click iff the release
coordinates are within the configured click tolerance of the recorded down
coordinates on each axis independently; for a touch release the coordinates
of the first `changedTouches` entry stand in for the mouse client
coordinates; the default tolerance is 10. -/
theorem click_tolerance_classification (x0 y0 x1 y1 tx ty tol : Int)
    (rest : List Touch) :
    (classifyUp x0 y0
        { clientX := some x1, clientY := some y1, changedTouches := none
        , targetIsCanvas := true } tol = true
      ↔ (|x1 - x0| ≤ tol ∧ |y1 - y0| ≤ tol))
    ∧ (classifyUp x0 y0
        { clientX := none, clientY := none
        , changedTouches := some ({ clientX := tx, clientY := ty } :: rest)
        , targetIsCanvas := true } tol = true
      ↔ (|tx - x0| ≤ tol ∧ |ty - y0| ≤ tol))
    ∧ resolveClickTolerance none = 10 := by
  refine ⟨?_, ?_, rfl⟩
  · simp [classifyUp, mouseWithin, touchWithin, abs_le]
    omega
  · simp [classifyUp, mouseWithin, touchWithin, abs_le]
    omega

/-- C3: with a panoramic candidate, `setPanorama` invokes the current
panorama's leave hook strictly before the new panorama's enter hook and makes
the new panorama current; with no current panorama only the enter hook runs;
with a non-panoramic candidate the call is a no-op. -/
theorem setPanorama_lifecycle :
    (∀ p1 p2 : Pano, p2.typeTag = "panorama" →
        setPanorama (some p1) p2 = (some p2, [Ev.onLeave p1, Ev.onEnter p2]))
    ∧ (∀ p : Pano, p.typeTag = "panorama" →
        setPanorama none p = (some p, [Ev.onEnter p]))
    ∧ (∀ (cur : Option Pano) (p : Pano), p.typeTag ≠ "panorama" →
        setPanorama cur p = (cur, [])) := by
  refine ⟨?_, ?_, ?_⟩ <;> intros <;> simp [setPanorama, *]

/-- Concrete panorama objects for the lifecycle witness. -/
def panoA : Pano := { pid := 1, typeTag := "panorama" }

/-- Second concrete panorama. -/
def panoB : Pano := { pid := 2, typeTag := "panorama" }

/-- A non-panoramic candidate object. -/
def notPano : Pano := { pid := 3, typeTag := "mesh" }

/-- Witness for C3 at concrete panoramas. -/
theorem setPanorama_lifecycle_witness :
    setPanorama (some panoA) panoB = (some panoB, [Ev.onLeave panoA, Ev.onEnter panoB])
    ∧ setPanorama none panoA = (some panoA, [Ev.onEnter panoA])
    ∧ setPanorama (some panoA) notPano = (some panoA, []) :=
  ⟨setPanorama_lifecycle.1 panoA panoB rfl,
    setPanorama_lifecycle.2.1 panoA rfl,
    setPanorama_lifecycle.2.2 (some panoA) notPano (by decide)⟩

/-- C8: the frame tick advances the tween engine, then the registered
callbacks in order, then the active control, then requests a render — but
because Viewer.js:418 reads the nonexistent property `VRManager.Mode`
(the instance exposes `mode`), the VR pose-tracking controls are never
updated, even while VR mode is active, contradicting the claim's "if and
only if the VR mode is currently active". -/
theorem render_skips_vr_update_in_vr_mode :
    render { mode := VRMode.vr } 2 true true =
      [FrameStep.tweenUpdate, FrameStep.updateCallback 0, FrameStep.updateCallback 1,
        FrameStep.controlUpdate, FrameStep.renderRequest]
    ∧ FrameStep.vrControlsUpdate ∉ render { mode := VRMode.vr } 2 true true := by
  constructor
  · rfl
  · decide

/-! ## Control coordinator lemmas and claims -/

lemma setEnabledAt_get_self (l : List ControlScheme) (i : Nat) (b : Bool) :
    (setEnabledAt l i b)[i]? = (l[i]?).map (fun c => { c with enabled := b }) := by
  induction l generalizing i with
  | nil => simp [setEnabledAt]
  | cons c cs ih => cases i <;> simp [setEnabledAt, ih]

lemma setEnabledAt_get_other (l : List ControlScheme) (i j : Nat) (b : Bool)
    (h : j ≠ i) : (setEnabledAt l i b)[j]? = l[j]? := by
  induction l generalizing i j with
  | nil => simp [setEnabledAt]
  | cons c cs ih =>
    cases i with
    | zero =>
      cases j with
      | zero => exact absurd rfl h
      | succ j => simp [setEnabledAt]
    | succ i =>
      cases j with
      | zero => simp [setEnabledAt]
      | succ j => simp [setEnabledAt, ih i j (by omega)]

/-- Orbit control scheme object (test data for C7). -/
def orbitScheme : ControlScheme := { name := "orbit", enabled := false }

/-- Device-orientation control scheme object (test data for C7). -/
def deviceScheme : ControlScheme := { name := "device-orientation", enabled := true }

/-- Coordinator state before a control switch: device-orientation active,
orbit focus away from the origin. -/
def coordBefore : CoordState :=
  { controls := [orbitScheme, deviceScheme], active := 1
  , cameraPos := { x := 9, y := 9, z := 9 }, orbitTarget := { x := 5, y := 5, z := 5 } }

/-- C7 counterexample: switching to the orbit scheme with the panorama at the
origin places the camera at the offset position but leaves the orbit focus
(`OrbitControls.target`) at its old value — `enableControl` never re-targets
it (only `setCameraControl`, bound to `enter-start`, does), so the claim's
"orbit focus re-targeted at the panorama position" is false. -/
theorem enableControl_orbit_focus_not_retargeted :
    (enableControl coordBefore { x := 0, y := 0, z := 0 } 0).cameraPos =
      { x := 0, y := 0, z := 1 }
    ∧ (enableControl coordBefore { x := 0, y := 0, z := 0 } 0).orbitTarget =
        { x := 5, y := 5, z := 5 }
    ∧ ({ x := 5, y := 5, z := 5 } : Vec3) ≠ { x := 0, y := 0, z := 0 } := by
  refine ⟨rfl, rfl, by decide⟩

/-- C7 amended: `enableControl` clamps an out-of-range index to 0, disables
the previously active scheme, enables and activates the selected one, and
re-poses the camera relative to the panorama position — orbit: offset by one
unit along the z axis; device-orientation: exactly the panorama position;
any other scheme: pose untouched.  The orbit focus is left untouched in every
case (it is re-targeted only by the `enter-start` handler
`setCameraControl`). -/
theorem enableControl_switch_spec (st : CoordState) (panoPos : Vec3) (index : Int)
    (c cOld : ControlScheme)
    (hc : st.controls[clampIndex st index]? = some c)
    (hold : st.controls[st.active]? = some cOld)
    (hne : st.active ≠ clampIndex st index) :
    (enableControl st panoPos index).active = clampIndex st index
    ∧ (enableControl st panoPos index).controls[clampIndex st index]? =
        some { c with enabled := true }
    ∧ (enableControl st panoPos index).controls[st.active]? =
        some { cOld with enabled := false }
    ∧ (enableControl st panoPos index).orbitTarget = st.orbitTarget
    ∧ (c.name = "orbit" →
        (enableControl st panoPos index).cameraPos =
          { x := panoPos.x, y := panoPos.y, z := panoPos.z + 1 })
    ∧ (c.name = "device-orientation" →
        (enableControl st panoPos index).cameraPos = panoPos)
    ∧ (c.name ≠ "orbit" → c.name ≠ "device-orientation" →
        (enableControl st panoPos index).cameraPos = st.cameraPos) := by
  have hsel :
      (setEnabledAt (setEnabledAt st.controls st.active false)
        (clampIndex st index) true)[clampIndex st index]? =
        some { c with enabled := true } := by
    rw [setEnabledAt_get_self, setEnabledAt_get_other _ _ _ _ (fun h => hne h.symm), hc]
    rfl
  have hprev :
      (setEnabledAt (setEnabledAt st.controls st.active false)
        (clampIndex st index) true)[st.active]? =
        some { cOld with enabled := false } := by
    rw [setEnabledAt_get_other _ _ _ _ hne, setEnabledAt_get_self, hold]
    rfl
  simp only [enableControl, hsel, Option.map_some', Option.getD_some]
  by_cases h1 : c.name = "orbit"
  · simp [h1, hsel, hprev]
  · by_cases h2 : c.name = "device-orientation"
    · simp [h1, h2, hsel, hprev]
    · simp [h1, h2, hsel, hprev]

/-- Witness for the amended C7 at a concrete coordinator state: switch from
device-orientation (index 1) to orbit (index 0). -/
theorem enableControl_switch_spec_witness :
    (enableControl coordBefore { x := 0, y := 0, z := 0 } 0).active =
      clampIndex coordBefore 0
    ∧ (enableControl coordBefore { x := 0, y := 0, z := 0 } 0).controls[clampIndex coordBefore 0]? =
        some { orbitScheme with enabled := true }
    ∧ (enableControl coordBefore { x := 0, y := 0, z := 0 } 0).controls[coordBefore.active]? =
        some { deviceScheme with enabled := false }
    ∧ (enableControl coordBefore { x := 0, y := 0, z := 0 } 0).orbitTarget =
        coordBefore.orbitTarget
    ∧ (orbitScheme.name = "orbit" →
        (enableControl coordBefore { x := 0, y := 0, z := 0 } 0).cameraPos =
          { x := (0 : Int), y := (0 : Int), z := (0 : Int) + 1 })
    ∧ (orbitScheme.name = "device-orientation" →
        (enableControl coordBefore { x := 0, y := 0, z := 0 } 0).cameraPos =
          { x := 0, y := 0, z := 0 })
    ∧ (orbitScheme.name ≠ "orbit" → orbitScheme.name ≠ "device-orientation" →
        (enableControl coordBefore { x := 0, y := 0, z := 0 } 0).cameraPos =
          coordBefore.cameraPos) :=
  enableControl_switch_spec coordBefore { x := 0, y := 0, z := 0 } 0 orbitScheme
    deviceScheme (by decide) (by decide) (by decide)

/-! ## Step lemmas for the pointer state machine -/

lemma pressStopEntityPhase_preserved (st : ViewerState) (ie : Option Target) :
    (pressStopEntityPhase st ie).1.hoverObject = st.hoverObject
    ∧ (pressStopEntityPhase st ie).1.hoveringObject = st.hoveringObject
    ∧ (pressStopEntityPhase st ie).1.pressObject = st.pressObject
    ∧ (pressStopEntityPhase st ie).1.panorama = st.panorama
    ∧ (pressStopEntityPhase st ie).1.userMouseType = st.userMouseType
    ∧ (pressStopEntityPhase st ie).1.options = st.options
    ∧ (pressStopEntityPhase st ie).1.cursorPointer = st.cursorPointer := by
  unfold pressStopEntityPhase
  split <;> simp

lemma pressStopEntityPhase_up (st : ViewerState) (ie : Option Target)
    (h : st.userMouseType = MType.mouseup) :
    (pressStopEntityPhase st ie).1.pressEntityObject = none := by
  unfold pressStopEntityPhase
  simp [h]

lemma pressStopEntityPhase_nonup (st : ViewerState) (ie : Option Target)
    (h : st.userMouseType ≠ MType.mouseup) :
    pressStopEntityPhase st ie = (st, []) := by
  unfold pressStopEntityPhase
  simp [h]

lemma pressStopObjPhase_preserved (st : ViewerState) (io : Option Primitive) :
    (pressStopObjPhase st io).1.hoverObject = st.hoverObject
    ∧ (pressStopObjPhase st io).1.hoveringObject = st.hoveringObject
    ∧ (pressStopObjPhase st io).1.pressEntityObject = st.pressEntityObject
    ∧ (pressStopObjPhase st io).1.panorama = st.panorama
    ∧ (pressStopObjPhase st io).1.userMouseType = st.userMouseType
    ∧ (pressStopObjPhase st io).1.options = st.options
    ∧ (pressStopObjPhase st io).1.cursorPointer = st.cursorPointer := by
  unfold pressStopObjPhase
  split <;> simp

lemma pressStopObjPhase_up (st : ViewerState) (io : Option Primitive)
    (h : st.userMouseType = MType.mouseup) :
    (pressStopObjPhase st io).1.pressObject = none := by
  unfold pressStopObjPhase
  simp [h]

lemma pressStopObjPhase_nonup (st : ViewerState) (io : Option Primitive)
    (h : st.userMouseType ≠ MType.mouseup) :
    pressStopObjPhase st io = (st, []) := by
  unfold pressStopObjPhase
  simp [h]

lemma clickPhase_fst (st : ViewerState) (pano : Pano) (ie : Option Target)
    (io : Option Primitive) : (clickPhase st pano ie io).1 = st := rfl

lemma hoverLeaveStep_preserved (st : ViewerState) (i : List Intersection)
    (ie : Option Target) :
    (hoverLeaveStep st i ie).1.hoveringObject = st.hoveringObject
    ∧ (hoverLeaveStep st i ie).1.pressEntityObject = st.pressEntityObject
    ∧ (hoverLeaveStep st i ie).1.pressObject = st.pressObject
    ∧ (hoverLeaveStep st i ie).1.panorama = st.panorama
    ∧ (hoverLeaveStep st i ie).1.userMouseType = st.userMouseType
    ∧ (hoverLeaveStep st i ie).1.options = st.options
    ∧ (hoverLeaveStep st i ie).1.cursorPointer = st.cursorPointer := by
  unfold hoverLeaveStep
  cases st.hoverObject
  · simp
  · dsimp only
    split_ifs <;> simp

lemma hoverLeaveStep_hover (st : ViewerState) (i : List Intersection)
    (ie : Option Target) :
    (hoverLeaveStep st i ie).1.hoverObject =
      (match st.hoverObject with
       | some h => if (i ≠ [] ∧ some h ≠ ie) ∨ i = [] then none else some h
       | none => none) := by
  unfold hoverLeaveStep
  cases hh : st.hoverObject
  · simp [hh]
  · dsimp only
    split_ifs <;> simp [hh]

lemma hoverLeaveStep_evs (st : ViewerState) (i : List Intersection)
    (ie : Option Target) :
    (hoverLeaveStep st i ie).2 =
      (match st.hoverObject with
       | some h =>
         if (i ≠ [] ∧ some h ≠ ie) ∨ i = [] then
           (if h.canDispatch then [Ev.hoverleave h] else [])
         else []
       | none => []) := by
  unfold hoverLeaveStep
  cases hh : st.hoverObject
  · simp
  · dsimp only
    split_ifs <;> simp

lemma hoverEnterStep_preserved (st : ViewerState) (e : Target) :
    (hoverEnterStep st e).1.hoveringObject = st.hoveringObject
    ∧ (hoverEnterStep st e).1.pressEntityObject = st.pressEntityObject
    ∧ (hoverEnterStep st e).1.pressObject = st.pressObject
    ∧ (hoverEnterStep st e).1.panorama = st.panorama
    ∧ (hoverEnterStep st e).1.userMouseType = st.userMouseType
    ∧ (hoverEnterStep st e).1.options = st.options
    ∧ (hoverEnterStep st e).1.cursorPointer = st.cursorPointer := by
  unfold hoverEnterStep
  split <;> simp

lemma hoverEnterStep_hover (st : ViewerState) (e : Target) :
    (hoverEnterStep st e).1.hoverObject = some e := by
  unfold hoverEnterStep
  split <;> simp_all

lemma hoverEnterStep_evs (st : ViewerState) (e : Target) :
    (hoverEnterStep st e).2 =
      if st.hoverObject ≠ some e ∧ e.canDispatch then [Ev.hoverenter e] else [] := by
  unfold hoverEnterStep
  by_cases h1 : st.hoverObject = some e <;> by_cases h2 : e.canDispatch = true <;>
    simp_all

lemma pressStartEntityStep_preserved (st : ViewerState) (e : Target) :
    (pressStartEntityStep st e).1.hoverObject = st.hoverObject
    ∧ (pressStartEntityStep st e).1.hoveringObject = st.hoveringObject
    ∧ (pressStartEntityStep st e).1.pressObject = st.pressObject
    ∧ (pressStartEntityStep st e).1.panorama = st.panorama
    ∧ (pressStartEntityStep st e).1.userMouseType = st.userMouseType
    ∧ (pressStartEntityStep st e).1.options = st.options
    ∧ (pressStartEntityStep st e).1.cursorPointer = st.cursorPointer := by
  unfold pressStartEntityStep
  split <;> simp

lemma pressStartEntityStep_press (st : ViewerState) (e : Target) :
    (pressStartEntityStep st e).1.pressEntityObject = st.pressEntityObject
    ∨ (pressStartEntityStep st e).1.pressEntityObject = some e := by
  unfold pressStartEntityStep
  split <;> simp

lemma pressStartEntityStep_nondown (st : ViewerState) (e : Target)
    (h : st.userMouseType ≠ MType.mousedown) :
    pressStartEntityStep st e = (st, []) := by
  unfold pressStartEntityStep
  simp [h]

lemma pressStartObjStep_preserved (st : ViewerState) (io : Option Primitive) :
    (pressStartObjStep st io).1.hoverObject = st.hoverObject
    ∧ (pressStartObjStep st io).1.hoveringObject = st.hoveringObject
    ∧ (pressStartObjStep st io).1.pressEntityObject = st.pressEntityObject
    ∧ (pressStartObjStep st io).1.panorama = st.panorama
    ∧ (pressStartObjStep st io).1.userMouseType = st.userMouseType
    ∧ (pressStartObjStep st io).1.options = st.options
    ∧ (pressStartObjStep st io).1.cursorPointer = st.cursorPointer := by
  unfold pressStartObjStep
  split <;> simp

lemma pressStartObjStep_nondown (st : ViewerState) (io : Option Primitive)
    (h : st.userMouseType ≠ MType.mousedown) :
    pressStartObjStep st io = (st, []) := by
  unfold pressStartObjStep
  simp [h]

lemma pressMoveEntityStep_fst (st : ViewerState) :
    (pressMoveEntityStep st).1 = st := by
  unfold pressMoveEntityStep
  split <;> rfl

lemma pressMoveEntityStep_evs_move (st : ViewerState)
    (h : st.userMouseType = MType.mousemove) :
    (pressMoveEntityStep st).2 =
      (match st.pressEntityObject with
       | some pe => if pe.canDispatch then [Ev.pressmoveEntity pe] else []
       | none => []) := by
  unfold pressMoveEntityStep
  simp [h]

lemma pressMoveObjStep_fst (st : ViewerState) :
    (pressMoveObjStep st).1 = st := by
  unfold pressMoveObjStep
  split <;> rfl

lemma pressMoveObjStep_evs_move (st : ViewerState)
    (h : st.userMouseType = MType.mousemove) :
    (pressMoveObjStep st).2 =
      (match st.pressObject with
       | some po => if po.canDispatch then [Ev.pressmove po] else []
       | none => []) := by
  unfold pressMoveObjStep
  simp [h]

lemma defaultCursorPhase_preserved (st : ViewerState) :
    (defaultCursorPhase st).1.hoverObject = st.hoverObject
    ∧ (defaultCursorPhase st).1.pressEntityObject = st.pressEntityObject
    ∧ (defaultCursorPhase st).1.pressObject = st.pressObject
    ∧ (defaultCursorPhase st).1.panorama = st.panorama
    ∧ (defaultCursorPhase st).1.userMouseType = st.userMouseType
    ∧ (defaultCursorPhase st).1.options = st.options := by
  unfold defaultCursorPhase
  cases st.hoveringObject <;> simp

lemma infospotPhase_preserved (st : ViewerState) (i : List Intersection)
    (ic : Bool) (cx cy : Option Int) :
    (infospotPhase st i ic cx cy).1.hoverObject = st.hoverObject
    ∧ (infospotPhase st i ic cx cy).1.pressEntityObject = st.pressEntityObject
    ∧ (infospotPhase st i ic cx cy).1.pressObject = st.pressObject
    ∧ (infospotPhase st i ic cx cy).1.panorama = st.panorama
    ∧ (infospotPhase st i ic cx cy).1.userMouseType = st.userMouseType
    ∧ (infospotPhase st i ic cx cy).1.options = st.options := by
  unfold infospotPhase
  cases hi : i.head?
  · exact defaultCursorPhase_preserved st
  · dsimp only
    split
    · split <;> split <;> simp
    · exact defaultCursorPhase_preserved st

lemma infospotPhase_evs_shape (st : ViewerState) (i : List Intersection)
    (ic : Bool) (cx cy : Option Int) :
    ∀ e ∈ (infospotPhase st i ic cx cy).2.1,
      (∃ o a b, e = Ev.infospotHover o a b) ∨ (∃ o, e = Ev.infospotClick o)
        ∨ (∃ o, e = Ev.infospotHoverEnd o) := by
  unfold infospotPhase defaultCursorPhase
  cases hi : i.head?
  · cases st.hoveringObject <;> simp
  · dsimp only
    split
    · split <;> split <;> simp
    · cases st.hoveringObject <;> simp

/-! ## hoverPhase lemmas -/

lemma hoverPhase_preserved (st : ViewerState) (pano : Pano)
    (i : List Intersection) (ie : Option Target) (io : Option Primitive) :
    (hoverPhase st pano i ie io).1.hoveringObject = st.hoveringObject
    ∧ (hoverPhase st pano i ie io).1.panorama = st.panorama
    ∧ (hoverPhase st pano i ie io).1.userMouseType = st.userMouseType
    ∧ (hoverPhase st pano i ie io).1.options = st.options
    ∧ (hoverPhase st pano i ie io).1.cursorPointer = st.cursorPointer := by
  unfold hoverPhase
  cases ie
  · simp [hoverLeaveStep_preserved]
  · dsimp only
    split_ifs <;>
      simp [hoverLeaveStep_preserved, hoverEnterStep_preserved,
        pressStartEntityStep_preserved, pressStartObjStep_preserved,
        pressMoveEntityStep_fst, pressMoveObjStep_fst]

lemma hoverPhase_hover (st : ViewerState) (pano : Pano)
    (i : List Intersection) (io : Option Primitive) :
    (hoverPhase st pano i (getConvertedIntersect i) io).1.hoverObject =
      getConvertedIntersect i := by
  cases hie : getConvertedIntersect i with
  | none =>
    unfold hoverPhase
    dsimp only
    rw [hoverLeaveStep_hover]
    cases st.hoverObject
    · rfl
    · by_cases hi : i = [] <;> simp [hi]
  | some e =>
    have hne : i ≠ [] := getConvertedIntersect_ne_nil hie
    unfold hoverPhase
    dsimp only
    rw [if_pos hne]
    simp [pressMoveObjStep_fst, pressMoveEntityStep_fst, pressStartObjStep_preserved,
      pressStartEntityStep_preserved, hoverEnterStep_hover]

lemma hoverPhase_press_nondown (st : ViewerState) (pano : Pano)
    (i : List Intersection) (ie : Option Target) (io : Option Primitive)
    (ht : st.userMouseType ≠ MType.mousedown) :
    (hoverPhase st pano i ie io).1.pressEntityObject = st.pressEntityObject
    ∧ (hoverPhase st pano i ie io).1.pressObject = st.pressObject := by
  unfold hoverPhase
  cases ie with
  | none => simp [hoverLeaveStep_preserved]
  | some e =>
    dsimp only
    split_ifs
    · have ht2 :
          (hoverEnterStep (hoverLeaveStep st i (some e)).1 e).1.userMouseType ≠
            MType.mousedown := by
        simp [hoverEnterStep_preserved, hoverLeaveStep_preserved, ht]
      rw [pressStartEntityStep_nondown _ _ ht2]
      rw [pressStartObjStep_nondown _ _ ht2]
      simp [pressMoveObjStep_fst, pressMoveEntityStep_fst, hoverEnterStep_preserved,
        hoverLeaveStep_preserved]
    · simp [hoverLeaveStep_preserved]

lemma hoverPhase_press_provenance (st : ViewerState) (pano : Pano)
    (i : List Intersection) (ie : Option Target) (io : Option Primitive) :
    (hoverPhase st pano i ie io).1.pressEntityObject = st.pressEntityObject
    ∨ (hoverPhase st pano i ie io).1.pressEntityObject = ie := by
  unfold hoverPhase
  cases ie with
  | none => left; simp [hoverLeaveStep_preserved]
  | some e =>
    dsimp only
    split_ifs
    · rcases pressStartEntityStep_press
          (hoverEnterStep (hoverLeaveStep st i (some e)).1 e).1 e with h | h
      · left
        simp [pressMoveObjStep_fst, pressMoveEntityStep_fst,
          pressStartObjStep_preserved, h, hoverEnterStep_preserved,
          hoverLeaveStep_preserved]
      · right
        simp [pressMoveObjStep_fst, pressMoveEntityStep_fst,
          pressStartObjStep_preserved, h]
    · left; simp [hoverLeaveStep_preserved]

lemma hoverPhase_mousemove_evs_eq (st : ViewerState) (pano : Pano)
    (i : List Intersection) (io : Option Primitive)
    (ht : st.userMouseType = MType.mousemove) :
    (hoverPhase st pano i (getConvertedIntersect i) io).2 =
      Ev.panoHover pano ::
        ((hoverLeaveStep st i (getConvertedIntersect i)).2 ++
          (match getConvertedIntersect i with
           | some e =>
             (hoverEnterStep (hoverLeaveStep st i (some e)).1 e).2 ++
               ((match st.pressEntityObject with
                 | some pe => if pe.canDispatch then [Ev.pressmoveEntity pe] else []
                 | none => []) ++
                (match st.pressObject with
                 | some po => if po.canDispatch then [Ev.pressmove po] else []
                 | none => []))
           | none => [])) := by
  cases hie : getConvertedIntersect i with
  | none =>
    unfold hoverPhase
    simp
  | some e =>
    have hne : i ≠ [] := getConvertedIntersect_ne_nil hie
    unfold hoverPhase
    dsimp only
    rw [if_pos hne]
    have ht2 :
        (hoverEnterStep (hoverLeaveStep st i (some e)).1 e).1.userMouseType ≠
          MType.mousedown := by
      simp [hoverEnterStep_preserved, hoverLeaveStep_preserved, ht]
    rw [pressStartEntityStep_nondown _ _ ht2]
    rw [pressStartObjStep_nondown _ _ ht2]
    have ht3 :
        (hoverEnterStep (hoverLeaveStep st i (some e)).1 e).1.userMouseType =
          MType.mousemove := by
      simp [hoverEnterStep_preserved, hoverLeaveStep_preserved, ht]
    rw [pressMoveEntityStep_evs_move _ ht3]
    have ht4 : (pressMoveEntityStep
        (hoverEnterStep (hoverLeaveStep st i (some e)).1 e).1).1.userMouseType =
          MType.mousemove := by
      rw [pressMoveEntityStep_fst]; exact ht3
    rw [pressMoveObjStep_evs_move _ ht4]
    simp [pressMoveEntityStep_fst, hoverEnterStep_preserved, hoverLeaveStep_preserved]

/-! ## Event membership characterizations -/

lemma mem_pmEntityEvs (e : Ev) (o : Option Target) :
    (e ∈ (match o with
      | some pe => if pe.canDispatch then [Ev.pressmoveEntity pe] else []
      | none => ([] : List Ev))) ↔
      (∃ pe, o = some pe ∧ pe.canDispatch = true ∧ e = Ev.pressmoveEntity pe) := by
  rcases o with _ | pe
  · simp
  · dsimp only
    split_ifs with hcd <;> simp [hcd]

lemma mem_pmObjEvs (e : Ev) (o : Option Primitive) :
    (e ∈ (match o with
      | some po => if po.canDispatch then [Ev.pressmove po] else []
      | none => ([] : List Ev))) ↔
      (∃ po, o = some po ∧ po.canDispatch = true ∧ e = Ev.pressmove po) := by
  rcases o with _ | po
  · simp
  · dsimp only
    split_ifs with hcd <;> simp [hcd]

lemma mem_hoverLeaveStep_evs (e : Ev) (st : ViewerState) (i : List Intersection)
    (ie : Option Target) :
    e ∈ (hoverLeaveStep st i ie).2 ↔
      (∃ h, st.hoverObject = some h ∧ h.canDispatch = true ∧
        ((i ≠ [] ∧ some h ≠ ie) ∨ i = []) ∧ e = Ev.hoverleave h) := by
  rw [hoverLeaveStep_evs]
  cases hh : st.hoverObject
  · simp
  · dsimp only
    split_ifs <;> simp [*]

lemma mem_hoverEnterStep_evs (ev : Ev) (st : ViewerState) (e : Target) :
    ev ∈ (hoverEnterStep st e).2 ↔
      (st.hoverObject ≠ some e ∧ e.canDispatch = true ∧ ev = Ev.hoverenter e) := by
  rw [hoverEnterStep_evs]
  split_ifs with h1
  · simp [h1]
  · simp only [not_and_or, not_not] at h1
    rcases h1 with h1 | h1 <;> simp [h1]

lemma hoverPhase_mousemove_enter_mem (st : ViewerState) (pano : Pano)
    (i : List Intersection) (io : Option Primitive)
    (ht : st.userMouseType = MType.mousemove) (x : Target) :
    Ev.hoverenter x ∈ (hoverPhase st pano i (getConvertedIntersect i) io).2 ↔
      (getConvertedIntersect i = some x ∧ st.hoverObject ≠ some x ∧
        x.canDispatch = true) := by
  rw [hoverPhase_mousemove_evs_eq st pano i io ht]
  cases hie : getConvertedIntersect i with
  | none => simp [mem_hoverLeaveStep_evs]
  | some e =>
    have hne : i ≠ [] := getConvertedIntersect_ne_nil hie
    simp only [List.mem_cons, List.mem_append, mem_hoverLeaveStep_evs,
      mem_hoverEnterStep_evs, mem_pmEntityEvs, mem_pmObjEvs, hoverLeaveStep_hover]
    cases hh : st.hoverObject with
    | none => simp [hne]; aesop
    | some h =>
      by_cases hxe : h = e
      · subst hxe
        simp [hne]
        tauto
      · simp [hne, hxe]
        aesop

lemma hoverPhase_mousemove_leave_mem (st : ViewerState) (pano : Pano)
    (i : List Intersection) (io : Option Primitive)
    (ht : st.userMouseType = MType.mousemove) (x : Target) :
    Ev.hoverleave x ∈ (hoverPhase st pano i (getConvertedIntersect i) io).2 ↔
      (st.hoverObject = some x ∧ x.canDispatch = true ∧
        ((i ≠ [] ∧ getConvertedIntersect i ≠ some x) ∨ i = [])) := by
  rw [hoverPhase_mousemove_evs_eq st pano i io ht]
  cases hie : getConvertedIntersect i with
  | none => simp [mem_hoverLeaveStep_evs]; aesop
  | some e =>
    have hne : i ≠ [] := getConvertedIntersect_ne_nil hie
    simp only [List.mem_cons, List.mem_append, mem_hoverLeaveStep_evs,
      mem_hoverEnterStep_evs, mem_pmEntityEvs, mem_pmObjEvs]
    simp [hne]
    aesop

lemma hoverPhase_mousemove_pressmoveEntity_mem (st : ViewerState) (pano : Pano)
    (i : List Intersection) (io : Option Primitive)
    (ht : st.userMouseType = MType.mousemove) (x : Target) :
    Ev.pressmoveEntity x ∈ (hoverPhase st pano i (getConvertedIntersect i) io).2 ↔
      ((getConvertedIntersect i).isSome = true ∧ st.pressEntityObject = some x ∧
        x.canDispatch = true) := by
  rw [hoverPhase_mousemove_evs_eq st pano i io ht]
  cases hie : getConvertedIntersect i with
  | none => simp [mem_hoverLeaveStep_evs]
  | some e =>
    simp only [List.mem_cons, List.mem_append, mem_hoverLeaveStep_evs,
      mem_hoverEnterStep_evs, mem_pmEntityEvs, mem_pmObjEvs]
    simp

lemma hoverPhase_mousemove_pressmove_mem (st : ViewerState) (pano : Pano)
    (i : List Intersection) (io : Option Primitive)
    (ht : st.userMouseType = MType.mousemove) (x : Primitive) :
    Ev.pressmove x ∈ (hoverPhase st pano i (getConvertedIntersect i) io).2 ↔
      ((getConvertedIntersect i).isSome = true ∧ st.pressObject = some x ∧
        x.canDispatch = true) := by
  rw [hoverPhase_mousemove_evs_eq st pano i io ht]
  cases hie : getConvertedIntersect i with
  | none => simp [mem_hoverLeaveStep_evs]
  | some e =>
    simp only [List.mem_cons, List.mem_append, mem_hoverLeaveStep_evs,
      mem_hoverEnterStep_evs, mem_pmEntityEvs, mem_pmObjEvs]
    simp

lemma infospotPhase_not_hoverenter (st : ViewerState) (i : List Intersection)
    (ic : Bool) (cx cy : Option Int) (x : Target) :
    Ev.hoverenter x ∉ (infospotPhase st i ic cx cy).2.1 := by
  intro hm
  rcases infospotPhase_evs_shape st i ic cx cy _ hm with ⟨o, a, b, h⟩ | ⟨o, h⟩ | ⟨o, h⟩ <;>
    simp at h

lemma infospotPhase_not_hoverleave (st : ViewerState) (i : List Intersection)
    (ic : Bool) (cx cy : Option Int) (x : Target) :
    Ev.hoverleave x ∉ (infospotPhase st i ic cx cy).2.1 := by
  intro hm
  rcases infospotPhase_evs_shape st i ic cx cy _ hm with ⟨o, a, b, h⟩ | ⟨o, h⟩ | ⟨o, h⟩ <;>
    simp at h

lemma infospotPhase_not_pressmoveEntity (st : ViewerState) (i : List Intersection)
    (ic : Bool) (cx cy : Option Int) (x : Target) :
    Ev.pressmoveEntity x ∉ (infospotPhase st i ic cx cy).2.1 := by
  intro hm
  rcases infospotPhase_evs_shape st i ic cx cy _ hm with ⟨o, a, b, h⟩ | ⟨o, h⟩ | ⟨o, h⟩ <;>
    simp at h

lemma infospotPhase_not_pressmove (st : ViewerState) (i : List Intersection)
    (ic : Bool) (cx cy : Option Int) (x : Primitive) :
    Ev.pressmove x ∉ (infospotPhase st i ic cx cy).2.1 := by
  intro hm
  rcases infospotPhase_evs_shape st i ic cx cy _ hm with ⟨o, a, b, h⟩ | ⟨o, h⟩ | ⟨o, h⟩ <;>
    simp at h

/-! ## onTap-level lemmas -/

lemma onTap_no_panorama (st : ViewerState) (i : List Intersection)
    (cx cy : Option Int) (b : Bool) (h : st.panorama = none) :
    onTap st i cx cy b = (st, [], false) := by
  unfold onTap
  rw [h]

lemma onTap_mouseup_clears (st : ViewerState) (i : List Intersection)
    (cx cy : Option Int) (b : Bool) (pano : Pano)
    (hp : st.panorama = some pano) (ht : st.userMouseType = MType.mouseup) :
    (onTap st i cx cy b).1.pressEntityObject = none
    ∧ (onTap st i cx cy b).1.pressObject = none := by
  unfold onTap
  rw [hp]
  dsimp only
  have h1t :
      (pressStopEntityPhase st (getConvertedIntersect i)).1.userMouseType =
        MType.mouseup := by
    simp [pressStopEntityPhase_preserved, ht]
  have h2t :
      (pressStopObjPhase (pressStopEntityPhase st (getConvertedIntersect i)).1
        (i.head?.map Intersection.object)).1.userMouseType = MType.mouseup := by
    simp [pressStopObjPhase_preserved, h1t]
  have h2pe :
      (pressStopObjPhase (pressStopEntityPhase st (getConvertedIntersect i)).1
        (i.head?.map Intersection.object)).1.pressEntityObject = none := by
    simp [pressStopObjPhase_preserved, pressStopEntityPhase_up st _ ht]
  have h2po :
      (pressStopObjPhase (pressStopEntityPhase st (getConvertedIntersect i)).1
        (i.head?.map Intersection.object)).1.pressObject = none :=
    pressStopObjPhase_up _ _ h1t
  have key : ∀ s : ViewerState, s.userMouseType = MType.mouseup →
      s.pressEntityObject = none → s.pressObject = none →
      ((infospotPhase
          (if b then clickPhase s pano (getConvertedIntersect i)
              (i.head?.map Intersection.object)
            else hoverPhase s pano i (getConvertedIntersect i)
              (i.head?.map Intersection.object)).1 i b cx cy).1.pressEntityObject =
        none
      ∧ (infospotPhase
          (if b then clickPhase s pano (getConvertedIntersect i)
              (i.head?.map Intersection.object)
            else hoverPhase s pano i (getConvertedIntersect i)
              (i.head?.map Intersection.object)).1 i b cx cy).1.pressObject = none) := by
    intro s hty hpe hpo
    cases b
    · have hnd : s.userMouseType ≠ MType.mousedown := by rw [hty]; decide
      have hpress := hoverPhase_press_nondown s pano i (getConvertedIntersect i)
        (i.head?.map Intersection.object) hnd
      constructor <;> simp [infospotPhase_preserved, hpress.1, hpress.2, hpe, hpo]
    · constructor <;> simp [infospotPhase_preserved, clickPhase_fst, hpe, hpo]
  exact key _ h2t h2pe h2po

lemma onTap_mousemove_spec (st : ViewerState) (i : List Intersection)
    (cx cy : Option Int) (pano : Pano)
    (hp : st.panorama = some pano) (ht : st.userMouseType = MType.mousemove) :
    (onTap st i cx cy false).1.hoverObject = getConvertedIntersect i
    ∧ (∀ x : Target, Ev.hoverenter x ∈ (onTap st i cx cy false).2.1 ↔
        (getConvertedIntersect i = some x ∧ st.hoverObject ≠ some x ∧
          x.canDispatch = true))
    ∧ (∀ x : Target, Ev.hoverleave x ∈ (onTap st i cx cy false).2.1 ↔
        (st.hoverObject = some x ∧ x.canDispatch = true ∧
          ((i ≠ [] ∧ getConvertedIntersect i ≠ some x) ∨ i = [])))
    ∧ (∀ x : Target, Ev.pressmoveEntity x ∈ (onTap st i cx cy false).2.1 ↔
        ((getConvertedIntersect i).isSome = true ∧ st.pressEntityObject = some x ∧
          x.canDispatch = true))
    ∧ (∀ x : Primitive, Ev.pressmove x ∈ (onTap st i cx cy false).2.1 ↔
        ((getConvertedIntersect i).isSome = true ∧ st.pressObject = some x ∧
          x.canDispatch = true)) := by
  have hnu : st.userMouseType ≠ MType.mouseup := by rw [ht]; decide
  unfold onTap
  rw [hp]
  dsimp only
  rw [pressStopEntityPhase_nonup st _ hnu]
  dsimp only
  rw [pressStopObjPhase_nonup st _ hnu]
  dsimp only
  rw [if_neg (by simp : ¬(false = true))]
  refine ⟨?_, ?_, ?_, ?_, ?_⟩
  · simp [infospotPhase_preserved, hoverPhase_hover]
  · intro x
    simp only [List.nil_append, List.mem_append,
      infospotPhase_not_hoverenter _ i false cx cy x,
      hoverPhase_mousemove_enter_mem st pano i _ ht x]
    simp
  · intro x
    simp only [List.nil_append, List.mem_append,
      infospotPhase_not_hoverleave _ i false cx cy x,
      hoverPhase_mousemove_leave_mem st pano i _ ht x]
    simp
  · intro x
    simp only [List.nil_append, List.mem_append,
      infospotPhase_not_pressmoveEntity _ i false cx cy x,
      hoverPhase_mousemove_pressmoveEntity_mem st pano i _ ht x]
    simp
  · intro x
    simp only [List.nil_append, List.mem_append,
      infospotPhase_not_pressmove _ i false cx cy x,
      hoverPhase_mousemove_pressmove_mem st pano i _ ht x]
    simp

/-! ## Press clearing (C4) -/

/-- A dispatchable, non-pass-through entity target used in counterexamples. -/
def cexEntity : Entity := { eid := 7, passThrough := false, canDispatch := true }

/-- The entity target tracked as pressed in counterexample states. -/
def cexTarget : Target := Target.entity cexEntity

/-- Default-like options (tolerance 10, auto-hide infospots on). -/
def baseOptions : Options :=
  { clickTolerance := 10, autoHideInfospot := true, autoHideControlBar := false }

/-- A state in mid-press: a panorama is current and both press references are
tracked. -/
def pressedState : ViewerState :=
  { options := baseOptions, panorama := some panoA, hoverObject := none
  , hoveringObject := none, pressEntityObject := some cexTarget
  , pressObject := some plainPrim, userMouseX := 0, userMouseY := 0
  , userMouseType := MType.none, cursorPointer := false }

/-- A pointer-up whose DOM target is not the render canvas (e.g. released
over the control bar). -/
def offCanvasUp : UpEvent :=
  { clientX := some 0, clientY := some 0, changedTouches := none
  , targetIsCanvas := false }

/-- C4 counterexample: a pointer-up whose DOM target is not the render canvas
is dropped by the guard at Viewer.js:460 before `onTap` runs, so both press
references survive the up event, contradicting "regardless of where the
release occurred". -/
theorem press_state_survives_off_canvas_up :
    (onMouseUp pressedState offCanvasUp []).1.pressEntityObject = some cexTarget
    ∧ (onMouseUp pressedState offCanvasUp []).1.pressObject = some plainPrim := by
  exact ⟨rfl, rfl⟩

/-- C4 amended: after every pointer-up event whose DOM target is the render
canvas, processed while a panorama is current, both the press-entity and the
press-primitive references are cleared — regardless of the release position,
of the intersection list, and of whether the entity resolved at release
matches the tracked press entity. -/
theorem up_on_canvas_clears_press (st : ViewerState) (ev : UpEvent)
    (i : List Intersection) (pano : Pano)
    (hc : ev.targetIsCanvas = true) (hp : st.panorama = some pano) :
    (onMouseUp st ev i).1.pressEntityObject = none
    ∧ (onMouseUp st ev i).1.pressObject = none := by
  unfold onMouseUp
  rw [hc]
  rw [if_neg (by decide : ¬(true = false))]
  dsimp only
  rcases hct : ev.changedTouches with _ | cts
  · have hcl := onTap_mouseup_clears { st with userMouseType := MType.mouseup } i
      ev.clientX ev.clientY
      (classifyUp st.userMouseX st.userMouseY ev st.options.clickTolerance) pano hp rfl
    refine ⟨?_, ?_⟩ <;> split_ifs <;> simp [hcl.1, hcl.2]
  · rcases cts with _ | ⟨t, rest⟩
    · have hcl := onTap_mouseup_clears { st with userMouseType := MType.mouseup } i
        ev.clientX ev.clientY
        (classifyUp st.userMouseX st.userMouseY ev st.options.clickTolerance) pano hp rfl
      refine ⟨?_, ?_⟩ <;> split_ifs <;> simp [hcl.1, hcl.2]
    · rcases rest with _ | ⟨t2, rest2⟩
      · have hcl := onTap_mouseup_clears { st with userMouseType := MType.mouseup } i
          (some t.clientX) (some t.clientY)
          (classifyUp st.userMouseX st.userMouseY ev st.options.clickTolerance) pano hp rfl
        refine ⟨?_, ?_⟩ <;> split_ifs <;> simp [hcl.1, hcl.2]
      · have hcl := onTap_mouseup_clears { st with userMouseType := MType.mouseup } i
          ev.clientX ev.clientY
          (classifyUp st.userMouseX st.userMouseY ev st.options.clickTolerance) pano hp rfl
        refine ⟨?_, ?_⟩ <;> split_ifs <;> simp [hcl.1, hcl.2]

/-- An on-canvas pointer-up for the C4 witness. -/
def onCanvasUp : UpEvent :=
  { clientX := some 100, clientY := some 100, changedTouches := none
  , targetIsCanvas := true }

/-- Witness for the amended C4: the on-canvas up at a far-away position (no
entity match, empty intersections) clears both press references. -/
theorem up_on_canvas_clears_press_witness :
    (onMouseUp pressedState onCanvasUp []).1.pressEntityObject = none
    ∧ (onMouseUp pressedState onCanvasUp []).1.pressObject = none :=
  up_on_canvas_clears_press pressedState onCanvasUp [] panoA rfl rfl

/-! ## No-panorama short-circuit (C9) -/

/-- C9: while no panorama is current, every pointer event — down, move or up —
dispatches no event and leaves the hover, infospot-hover and press references
(and the absent panorama) untouched.  Host errors are modelled as result
values (`Option HostError`), so no handler can abort the embedding's frame
loop. -/
theorem pointer_noop_without_panorama (st : ViewerState) (pe : PointerEvent)
    (i : List Intersection) (h : st.panorama = none) :
    (handlePointer st pe i).2.1 = []
    ∧ (handlePointer st pe i).1.hoverObject = st.hoverObject
    ∧ (handlePointer st pe i).1.hoveringObject = st.hoveringObject
    ∧ (handlePointer st pe i).1.pressEntityObject = st.pressEntityObject
    ∧ (handlePointer st pe i).1.pressObject = st.pressObject
    ∧ (handlePointer st pe i).1.panorama = none := by
  cases pe with
  | down ev =>
    unfold handlePointer onMouseDown
    rcases hx : downCoord ev.clientX ev.touches Touch.clientX with _ | x
    · simp [hx, h]
    · rcases hy : downCoord ev.clientY ev.touches Touch.clientY with _ | y
      · simp [hx, hy, h]
      · simp only [hx, hy]
        rw [onTap_no_panorama _ _ _ _ _ (by simpa using h)]
        simp [h]
  | move ev =>
    unfold handlePointer onMouseMove
    dsimp only
    rw [onTap_no_panorama _ _ _ _ _ (by simpa using h)]
    simp [h]
  | up ev =>
    have hsel : handlePointer st (PointerEvent.up ev) i = onMouseUp st ev i := rfl
    rw [hsel]
    unfold onMouseUp
    by_cases hc : ev.targetIsCanvas = false
    · rw [if_pos (by rw [hc])]
      simp [h]
    · rw [if_neg (by simp [Bool.not_eq_false] at hc; rw [hc]; decide)]
      dsimp only
      rcases hct : ev.changedTouches with _ | cts
      · simp only [hct]
        rw [onTap_no_panorama _ _ _ _ _ (by simpa using h)]
        split_ifs <;> simp [h]
      · rcases cts with _ | ⟨t, rest⟩
        · simp only [hct]
          rw [onTap_no_panorama _ _ _ _ _ (by simpa using h)]
          split_ifs <;> simp [h]
        · rcases rest with _ | ⟨t2, rest2⟩
          · simp only [hct]
            rw [onTap_no_panorama _ _ _ _ _ (by simpa using h)]
            split_ifs <;> simp [h]
          · simp only [hct]
            rw [onTap_no_panorama _ _ _ _ _ (by simpa using h)]
            split_ifs <;> simp [h]

/-- A pressed-like state without a current panorama. -/
def noPanoState : ViewerState :=
  { options := baseOptions, panorama := none, hoverObject := some cexTarget
  , hoveringObject := none, pressEntityObject := some cexTarget
  , pressObject := some plainPrim, userMouseX := 0, userMouseY := 0
  , userMouseType := MType.none, cursorPointer := false }

/-- Witness for C9: a concrete move event with no current panorama dispatches
nothing and changes no reference. -/
theorem pointer_noop_without_panorama_witness :
    (handlePointer noPanoState (PointerEvent.move { clientX := some 3, clientY := some 4 })
        [⟨plainPrim⟩]).2.1 = []
    ∧ (handlePointer noPanoState (PointerEvent.move { clientX := some 3, clientY := some 4 })
        [⟨plainPrim⟩]).1.hoverObject = noPanoState.hoverObject
    ∧ (handlePointer noPanoState (PointerEvent.move { clientX := some 3, clientY := some 4 })
        [⟨plainPrim⟩]).1.hoveringObject = noPanoState.hoveringObject
    ∧ (handlePointer noPanoState (PointerEvent.move { clientX := some 3, clientY := some 4 })
        [⟨plainPrim⟩]).1.pressEntityObject = noPanoState.pressEntityObject
    ∧ (handlePointer noPanoState (PointerEvent.move { clientX := some 3, clientY := some 4 })
        [⟨plainPrim⟩]).1.pressObject = noPanoState.pressObject
    ∧ (handlePointer noPanoState (PointerEvent.move { clientX := some 3, clientY := some 4 })
        [⟨plainPrim⟩]).1.panorama = none :=
  pointer_noop_without_panorama noPanoState
    (PointerEvent.move { clientX := some 3, clientY := some 4 }) [⟨plainPrim⟩] rfl

/-! ## Hover transitions (C6) and press-move protocol (C5) -/

/-- C6: on every hover-type pointer update with a panorama current, the hover
reference afterwards equals the resolver's result; `hoverenter` fires on `x`
exactly when the resolver yields `x` and `x` was not already the hover entity
(so re-hovering the same entity fires no duplicate enter); `hoverleave` fires
on the previous hover entity exactly when the newly resolved entity differs
while intersections exist, or when there are no intersections — and the
reference is cleared (or replaced) at that point. -/
theorem hover_transition_protocol (st : ViewerState) (ev : MoveEvent)
    (i : List Intersection) (pano : Pano) (hp : st.panorama = some pano) :
    (onMouseMove st ev i).1.hoverObject = getConvertedIntersect i
    ∧ (∀ x : Target, Ev.hoverenter x ∈ (onMouseMove st ev i).2 ↔
        (getConvertedIntersect i = some x ∧ st.hoverObject ≠ some x ∧
          x.canDispatch = true))
    ∧ (∀ x : Target, Ev.hoverleave x ∈ (onMouseMove st ev i).2 ↔
        (st.hoverObject = some x ∧ x.canDispatch = true ∧
          ((i ≠ [] ∧ getConvertedIntersect i ≠ some x) ∨ i = []))) := by
  have hspec := onTap_mousemove_spec { st with userMouseType := MType.mousemove } i
    ev.clientX ev.clientY pano hp rfl
  unfold onMouseMove
  dsimp only
  exact ⟨hspec.1, hspec.2.1, hspec.2.2.1⟩

/-- A hover-idle state with a current panorama. -/
def idleState : ViewerState :=
  { options := baseOptions, panorama := some panoA, hoverObject := none
  , hoveringObject := none, pressEntityObject := none, pressObject := none
  , userMouseX := 0, userMouseY := 0, userMouseType := MType.none
  , cursorPointer := false }

/-- Witness for C6 at a concrete state and a one-element intersection list. -/
theorem hover_transition_protocol_witness :
    (onMouseMove idleState { clientX := some 3, clientY := some 4 }
        [⟨plainPrim⟩]).1.hoverObject = getConvertedIntersect [⟨plainPrim⟩]
    ∧ (∀ x : Target, Ev.hoverenter x ∈
          (onMouseMove idleState { clientX := some 3, clientY := some 4 }
            [⟨plainPrim⟩]).2 ↔
        (getConvertedIntersect [⟨plainPrim⟩] = some x ∧
          idleState.hoverObject ≠ some x ∧ x.canDispatch = true))
    ∧ (∀ x : Target, Ev.hoverleave x ∈
          (onMouseMove idleState { clientX := some 3, clientY := some 4 }
            [⟨plainPrim⟩]).2 ↔
        (idleState.hoverObject = some x ∧ x.canDispatch = true ∧
          (([⟨plainPrim⟩] ≠ ([] : List Intersection) ∧
            getConvertedIntersect [⟨plainPrim⟩] ≠ some x) ∨
            [⟨plainPrim⟩] = ([] : List Intersection)))) :=
  hover_transition_protocol idleState { clientX := some 3, clientY := some 4 }
    [⟨plainPrim⟩] panoA rfl

/-- C5 counterexample: with a press entity and press primitive tracked and a
panorama current, a move whose ray cast returns no intersections fires
neither `pressmove-entity` nor `pressmove` — the dispatch sits inside the
`intersect_entity && intersects.length > 0` guard (Viewer.js:587), so the
claim's "regardless of whether the pointer is currently over that entity"
fails for moves over empty space. -/
theorem pressmove_skipped_on_empty_move :
    pressedState.pressEntityObject = some cexTarget
    ∧ pressedState.pressObject = some plainPrim
    ∧ Ev.pressmoveEntity cexTarget ∉
        (onMouseMove pressedState { clientX := some 3, clientY := some 4 } []).2
    ∧ Ev.pressmove plainPrim ∉
        (onMouseMove pressedState { clientX := some 3, clientY := some 4 } []).2 := by
  refine ⟨rfl, rfl, ?_, ?_⟩ <;> decide

/-- C5 amended: on a move gesture with a panorama current and a press entity
(resp. press primitive) tracked, `pressmove-entity` (resp. `pressmove`) fires
on the tracked object if and only if the move resolves to some target
(any target — not necessarily the tracked one) and the tracked object can
dispatch; moves that resolve to nothing fire no press-move events. -/
theorem pressmove_requires_resolved_target (st : ViewerState) (ev : MoveEvent)
    (i : List Intersection) (pano : Pano) (hp : st.panorama = some pano) :
    (∀ x : Target, st.pressEntityObject = some x →
      (Ev.pressmoveEntity x ∈ (onMouseMove st ev i).2 ↔
        ((getConvertedIntersect i).isSome = true ∧ x.canDispatch = true)))
    ∧ (∀ x : Primitive, st.pressObject = some x →
      (Ev.pressmove x ∈ (onMouseMove st ev i).2 ↔
        ((getConvertedIntersect i).isSome = true ∧ x.canDispatch = true))) := by
  have hspec := onTap_mousemove_spec { st with userMouseType := MType.mousemove } i
    ev.clientX ev.clientY pano hp rfl
  unfold onMouseMove
  dsimp only
  constructor
  · intro x hx
    rw [hspec.2.2.2.1 x]
    simp [hx]
  · intro x hx
    rw [hspec.2.2.2.2 x]
    simp [hx]

/-- Witness for the amended C5: the same pressed state with a non-empty
resolving intersection list. -/
theorem pressmove_requires_resolved_target_witness :
    (∀ x : Target, pressedState.pressEntityObject = some x →
      (Ev.pressmoveEntity x ∈
          (onMouseMove pressedState { clientX := some 3, clientY := some 4 }
            [⟨plainPrim⟩]).2 ↔
        ((getConvertedIntersect [⟨plainPrim⟩]).isSome = true ∧ x.canDispatch = true)))
    ∧ (∀ x : Primitive, pressedState.pressObject = some x →
      (Ev.pressmove x ∈
          (onMouseMove pressedState { clientX := some 3, clientY := some 4 }
            [⟨plainPrim⟩]).2 ↔
        ((getConvertedIntersect [⟨plainPrim⟩]).isSome = true ∧ x.canDispatch = true))) :=
  pressmove_requires_resolved_target pressedState { clientX := some 3, clientY := some 4 }
    [⟨plainPrim⟩] panoA rfl

/-! ## No pass-through targets (C10) -/

lemma getConvertedIntersect_no_passthrough :
    ∀ (l : List Intersection) (t : Target),
      getConvertedIntersect l = some t → t.passThroughB = false := by
  intro l
  induction l with
  | nil => intro t ht; simp [getConvertedIntersect] at ht
  | cons i rest ih =>
    intro t ht
    by_cases hpt : i.object.passThrough
    · simp only [getConvertedIntersect, hpt] at ht
      simp at ht
      exact ih t ht
    · cases he : i.object.entity with
      | none =>
        simp only [getConvertedIntersect, hpt, he] at ht
        simp at ht
        rw [← ht]
        simp [Target.passThroughB, hpt]
      | some e =>
        by_cases hept : e.passThrough
        · simp only [getConvertedIntersect, hpt, he] at ht
          simp [hept] at ht
          exact ih t ht
        · simp only [getConvertedIntersect, hpt, he] at ht
          simp [hept] at ht
          rw [← ht]
          simp [Target.passThroughB, hept]

lemma pressStopEntityPhase_press_cases (st : ViewerState) (ie : Option Target) :
    (pressStopEntityPhase st ie).1.pressEntityObject = none
    ∨ (pressStopEntityPhase st ie).1.pressEntityObject = st.pressEntityObject := by
  unfold pressStopEntityPhase
  split <;> simp

/-- The invariant of C10: neither the hover-entity nor the press-entity
reference points at a pass-through target. -/
def noPassThroughRefs (st : ViewerState) : Prop :=
  (∀ t : Target, st.hoverObject = some t → t.passThroughB = false)
  ∧ (∀ t : Target, st.pressEntityObject = some t → t.passThroughB = false)

lemma onTap_preserves_refs (st : ViewerState) (i : List Intersection)
    (cx cy : Option Int) (b : Bool) (h : noPassThroughRefs st) :
    noPassThroughRefs (onTap st i cx cy b).1 := by
  unfold onTap
  cases hp : st.panorama with
  | none => exact h
  | some pano =>
    dsimp only
    have hs2hover :
        (pressStopObjPhase (pressStopEntityPhase st (getConvertedIntersect i)).1
          (i.head?.map Intersection.object)).1.hoverObject = st.hoverObject := by
      simp [pressStopObjPhase_preserved, pressStopEntityPhase_preserved]
    have hs2press :
        (pressStopObjPhase (pressStopEntityPhase st (getConvertedIntersect i)).1
          (i.head?.map Intersection.object)).1.pressEntityObject = none
        ∨ (pressStopObjPhase (pressStopEntityPhase st (getConvertedIntersect i)).1
            (i.head?.map Intersection.object)).1.pressEntityObject =
          st.pressEntityObject := by
      rcases pressStopEntityPhase_press_cases st (getConvertedIntersect i) with h1 | h1
      · left; simp [pressStopObjPhase_preserved, h1]
      · right; simp [pressStopObjPhase_preserved, h1]
    cases b
    · rw [if_neg (by decide : ¬(false = true))]
      constructor
      · intro t ht
        rw [(infospotPhase_preserved _ i false cx cy).1] at ht
        rw [hoverPhase_hover _ pano i (i.head?.map Intersection.object)] at ht
        exact getConvertedIntersect_no_passthrough i t ht
      · intro t ht
        rw [(infospotPhase_preserved _ i false cx cy).2.1] at ht
        rcases hoverPhase_press_provenance
            (pressStopObjPhase (pressStopEntityPhase st (getConvertedIntersect i)).1
              (i.head?.map Intersection.object)).1 pano i (getConvertedIntersect i)
            (i.head?.map Intersection.object) with hc | hc
        · rw [hc] at ht
          rcases hs2press with h1 | h1
          · rw [h1] at ht; cases ht
          · rw [h1] at ht; exact h.2 t ht
        · rw [hc] at ht
          exact getConvertedIntersect_no_passthrough i t ht
    · rw [if_pos (by decide : (true = true))]
      constructor
      · intro t ht
        rw [(infospotPhase_preserved _ i true cx cy).1] at ht
        rw [clickPhase_fst] at ht
        rw [hs2hover] at ht
        exact h.1 t ht
      · intro t ht
        rw [(infospotPhase_preserved _ i true cx cy).2.1] at ht
        rw [clickPhase_fst] at ht
        rcases hs2press with h1 | h1
        · rw [h1] at ht; cases ht
        · rw [h1] at ht; exact h.2 t ht

/-- C10: the entity resolver only ever returns a target whose `passThrough`
flag is false, and — since the hover-entity and press-entity references are
only ever assigned from the resolver's result or cleared — every pointer
event preserves the invariant that neither reference points at a
pass-through object. -/
theorem resolver_and_refs_no_passthrough :
    (∀ (l : List Intersection) (t : Target),
        getConvertedIntersect l = some t → t.passThroughB = false)
    ∧ (∀ (st : ViewerState) (pe : PointerEvent) (i : List Intersection),
        noPassThroughRefs st → noPassThroughRefs (handlePointer st pe i).1) := by
  refine ⟨getConvertedIntersect_no_passthrough, ?_⟩
  intro st pe i h
  cases pe with
  | down ev =>
    have hsel : handlePointer st (PointerEvent.down ev) i = onMouseDown st ev i := rfl
    rw [hsel]
    unfold onMouseDown
    rcases hx : downCoord ev.clientX ev.touches Touch.clientX with _ | x
    · simp only [hx]; exact h
    · rcases hy : downCoord ev.clientY ev.touches Touch.clientY with _ | y
      · simp only [hx, hy]; exact h
      · simp only [hx, hy]
        exact onTap_preserves_refs _ i ev.clientX ev.clientY false h
  | move ev =>
    have hsel : handlePointer st (PointerEvent.move ev) i = ((onMouseMove st ev i).1,
      (onMouseMove st ev i).2, none) := rfl
    rw [hsel]
    unfold onMouseMove
    dsimp only
    exact onTap_preserves_refs _ i ev.clientX ev.clientY false h
  | up ev =>
    have hsel : handlePointer st (PointerEvent.up ev) i = onMouseUp st ev i := rfl
    rw [hsel]
    unfold onMouseUp
    by_cases hc : ev.targetIsCanvas = false
    · rw [if_pos hc]; exact h
    · rw [if_neg hc]
      dsimp only
      rcases hct : ev.changedTouches with _ | cts
      · simp only [hct]
        split_ifs <;> exact onTap_preserves_refs _ i _ _ _ h
      · rcases cts with _ | ⟨t, rest⟩
        · simp only [hct]
          split_ifs <;> exact onTap_preserves_refs _ i _ _ _ h
        · rcases rest with _ | ⟨t2, rest2⟩
          · simp only [hct]
            split_ifs <;> exact onTap_preserves_refs _ i _ _ _ h
          · simp only [hct]
            split_ifs <;> exact onTap_preserves_refs _ i _ _ _ h

/-- Witness for C10 at a concrete state and a pass-through-then-opaque
intersection list. -/
theorem resolver_and_refs_no_passthrough_witness :
    noPassThroughRefs (handlePointer idleState
      (PointerEvent.move { clientX := some 1, clientY := some 2 })
      [⟨passHelperPrim⟩, ⟨plainPrim⟩]).1 :=
  resolver_and_refs_no_passthrough.2 idleState
    (PointerEvent.move { clientX := some 1, clientY := some 2 })
    [⟨passHelperPrim⟩, ⟨plainPrim⟩]
    ⟨fun t ht => by simp [idleState] at ht, fun t ht => by simp [idleState] at ht⟩

end Panolens
